import Mathlib

/-!
Verification development for the anime caching-proxy backend
(src/db.js, src/server.js).

The server exposes three endpoints:
  GET /anime/search-titles : title-only lookup against the local cache;
  GET /anime/search-api    : upstream paginated search plus title upsert;
  GET /anime/name          : combined detail lookup (cache-or-fetch) with
                             episode persistence.

The embedding below is a shallow model of the request handlers: the MySQL
tables become lists of rows, the upstream GraphQL service, the translation
service and the possibility of a failing write become explicit parameters,
and each handler returns the resulting database state, the HTTP response
and a trace of the outbound calls it performed, in order.
-/

/-- Trace of an observable outbound call made while handling one request.
Database statements and HTTP calls are distinguished so that frame
properties (such as zero outbound HTTP calls) can be stated. -/
inductive Effect where
  | dbSelectAnimes (pattern : String)
  | dbSelectEpisodes (animeId : Nat)
  | dbUpsertAnimes
  | dbUpsertEpisodes
  | httpGraphql (search : String)
  | httpTranslate
deriving DecidableEq

/-- True exactly on the outbound HTTP effects (GraphQL fetch, translation). -/
def isHttpCall : Effect → Bool
  | .httpGraphql _ => true
  | .httpTranslate => true
  | _ => false

/-- Row of the animes table: animes(id PK, title_romaji, title_english,
title_native, description, genres, cover_image, banner_image, episodes).
Nullable columns are Option; the episode-count column is Option Nat (a
freshly inserted title-only row leaves it at its NULL default). -/
structure AnimeRow where
  id : Nat
  title_romaji : Option String
  title_english : Option String
  title_native : Option String
  description : Option String
  genres : Option String
  cover_image : Option String
  banner_image : Option String
  episodes : Option Nat
deriving DecidableEq

/-- Row of the anime_episodes table, key (anime_id, episode_number). -/
structure EpisodeRow where
  anime_id : Nat
  episode_number : Nat
  title_romaji : Option String
  title_translated : Option String
  thumbnail_image : Option String
deriving DecidableEq

/-- The unique key of an episode row. -/
def epKey (e : EpisodeRow) : Nat × Nat := (e.anime_id, e.episode_number)

/-- The two cache tables. -/
structure DB where
  animes : List AnimeRow
  episodes : List EpisodeRow
deriving DecidableEq

/-- Upstream title object with its three optional scripts. -/
structure UpstreamTitle where
  romaji : Option String
  english : Option String
  native : Option String
deriving DecidableEq

/-- Upstream coverImage object. -/
structure CoverImage where
  extraLarge : Option String
deriving DecidableEq

/-- Upstream streamingEpisodes entry: title and thumbnail only, no number. -/
structure StreamingEpisode where
  title : Option String
  thumbnail : Option String
deriving DecidableEq

/-- Upstream Media object as selected by the GraphQL queries in server.js. -/
structure UpstreamAnime where
  id : Nat
  title : UpstreamTitle
  description : Option String
  genres : Option (List String)
  episodes : Option Nat
  coverImage : Option CoverImage
  bannerImage : Option String
  streamingEpisodes : List StreamingEpisode
deriving DecidableEq

/-- Outcome of one call to the translation service as seen by translateText:
a transport failure (fetch or json throws), a non-success HTTP response, or
a success payload whose first translation text may be absent. -/
inductive TranslateResult where
  | transportError
  | badStatus
  | ok (text : Option String)
deriving DecidableEq

/-- The translation call failed (transport error or non-success response). -/
def failedTranslate (r : TranslateResult) : Prop :=
  r = .transportError ∨ r = .badStatus

instance (r : TranslateResult) : Decidable (failedTranslate r) := by
  unfold failedTranslate; infer_instance

/-- JavaScript coercion x || d for a nullable string x and string default d:
null and the empty string are falsy. -/
def jsOr (o : Option String) (d : String) : String :=
  match o with
  | none => d
  | some s => if s = "" then d else s

/-- JavaScript coercion s || d for two strings: the empty string is falsy. -/
def jsOrStr (s d : String) : String := if s = "" then d else s

/-- JavaScript coercion x || null for a nullable string: an empty string
collapses to null, everything else passes through. -/
def jsToNull (o : Option String) : Option String :=
  match o with
  | none => none
  | some s => if s = "" then none else some s

/-- Model of translateText (server.js lines 318-339): any thrown error is
caught and the fixed fallback string is returned; on success the first
translation text is returned, itself defaulted to the fallback. -/
def translateText : TranslateResult → String
  | .transportError => "Tradução indisponível"
  | .badStatus => "Tradução indisponível"
  | .ok t => jsOr t "Tradução indisponível"

/-- Model of sanitizeHtml with allowedTags empty and allowedAttributes
empty: every tag, that is every maximal segment from a < up to the next >,
is removed and the remaining text is kept. -/
def stripTagsAux : List Char → Bool → List Char
  | [], _ => []
  | c :: cs, true => if c = '>' then stripTagsAux cs false else stripTagsAux cs true
  | c :: cs, false => if c = '<' then stripTagsAux cs true else c :: stripTagsAux cs false

/-- Markup stripping applied to translated text before storage. -/
def sanitizeText (s : String) : String := String.mk (stripTagsAux s.data false)

/-- Model of the \s character class of the query regex and of trim:
JavaScript WhiteSpace and LineTerminator code points. -/
def isJsSpace (c : Char) : Bool :=
  c.toNat = 0x20 || c.toNat = 0x09 || c.toNat = 0x0A || c.toNat = 0x0D ||
  c.toNat = 0x0B || c.toNat = 0x0C || c.toNat = 0xA0 || c.toNat = 0x1680 ||
  (0x2000 ≤ c.toNat && c.toNat ≤ 0x200A) || c.toNat = 0x2028 || c.toNat = 0x2029 ||
  c.toNat = 0x202F || c.toNat = 0x205F || c.toNat = 0x3000 || c.toNat = 0xFEFF

/-- Modelled Unicode letter class for the regex property \p\x7bL\x7d,
restricted to representative ranges: ASCII, Latin-1 and extended Latin,
Greek, Cyrillic, Hebrew, Arabic, Devanagari, Hiragana, Katakana, unified
CJK ideographs and Hangul syllables. -/
def isUnicodeLetter (c : Char) : Bool :=
  (0x41 ≤ c.toNat && c.toNat ≤ 0x5A) || (0x61 ≤ c.toNat && c.toNat ≤ 0x7A) ||
  c.toNat = 0xAA || c.toNat = 0xB5 || c.toNat = 0xBA ||
  (0xC0 ≤ c.toNat && c.toNat ≤ 0xD6) || (0xD8 ≤ c.toNat && c.toNat ≤ 0xF6) ||
  (0xF8 ≤ c.toNat && c.toNat ≤ 0x2AF) ||
  (0x386 ≤ c.toNat && c.toNat ≤ 0x3FF && c.toNat ≠ 0x387) ||
  (0x400 ≤ c.toNat && c.toNat ≤ 0x4FF) ||
  (0x5D0 ≤ c.toNat && c.toNat ≤ 0x5EA) ||
  (0x621 ≤ c.toNat && c.toNat ≤ 0x64A) ||
  (0x905 ≤ c.toNat && c.toNat ≤ 0x939) ||
  (0x3041 ≤ c.toNat && c.toNat ≤ 0x3096) ||
  (0x30A1 ≤ c.toNat && c.toNat ≤ 0x30FA) ||
  (0x4E00 ≤ c.toNat && c.toNat ≤ 0x9FFF) ||
  (0xAC00 ≤ c.toNat && c.toNat ≤ 0xD7A3)

/-- Modelled Unicode number class for the regex property \p\x7bN\x7d,
restricted to representative ranges: ASCII, Arabic-Indic, Devanagari and
fullwidth digits. -/
def isUnicodeNumber (c : Char) : Bool :=
  (0x30 ≤ c.toNat && c.toNat ≤ 0x39) || (0x660 ≤ c.toNat && c.toNat ≤ 0x669) ||
  (0x966 ≤ c.toNat && c.toNat ≤ 0x96F) || (0xFF10 ≤ c.toNat && c.toNat ≤ 0xFF19)

/-- A character survives the query-normalization regex exactly when it is a
letter, a number or whitespace. -/
def isQueryChar (c : Char) : Bool :=
  isUnicodeLetter c || isUnicodeNumber c || isJsSpace c

/-- JavaScript String.prototype.trim on a character list. -/
def jsTrimList (l : List Char) : List Char :=
  ((l.dropWhile isJsSpace).reverse.dropWhile isJsSpace).reverse

/-- JavaScript String.prototype.trim. -/
def jsTrim (s : String) : String := String.mk (jsTrimList s.data)

/-- Query normalization shared by all three endpoints: drop every character
outside the letter, number and whitespace classes, then trim. -/
def normalizeQuery (q : String) : String :=
  jsTrim (String.mk (q.data.filter isQueryChar))

/-- ASCII lowering used to model the case-insensitive MySQL collation
under which the LIKE matches of server.js run. -/
def lowerChar (c : Char) : Char := c.toLower

/-- True when needle occurs at the head of hay. -/
def beginsWith : List Char → List Char → Bool
  | [], _ => true
  | _ :: _, [] => false
  | a :: as, b :: bs => a == b && beginsWith as bs

/-- True when needle occurs contiguously anywhere inside hay. -/
def containsSeq (needle : List Char) : List Char → Bool
  | [] => beginsWith needle []
  | c :: rest => beginsWith needle (c :: rest) || containsSeq needle rest

/-- Model of column LIKE percent-pattern-percent: case-insensitive
substring containment; a NULL column never matches. -/
def likeContains (pattern : String) (field : Option String) : Bool :=
  match field with
  | none => false
  | some s => containsSeq (pattern.data.map lowerChar) (s.data.map lowerChar)

/-- The WHERE clause shared by the cache lookups: any of the three title
columns contains the normalized query. -/
def matchesQuery (sq : String) (r : AnimeRow) : Bool :=
  likeContains sq r.title_romaji || likeContains sq r.title_english ||
    likeContains sq r.title_native

/-- The paginated SELECT of GET /anime/name: filter by title match, then
apply OFFSET (page-1)*limit and LIMIT limit. -/
def selectAnimes (animes : List AnimeRow) (sq : String) (page limit : Int) : List AnimeRow :=
  (((animes.filter (matchesQuery sq)).drop ((page - 1) * limit).toNat).take limit.toNat)

/-- Full-row upsert of the animes table (GET /anime/name, lines 263-286):
on a conflicting id every non-key column is set to the incoming value, so
the conflicting row becomes the incoming row; otherwise the row is
appended. -/
def upsertAnime1 (db : List AnimeRow) (r : AnimeRow) : List AnimeRow :=
  if db.any (fun o => o.id == r.id)
  then db.map (fun o => if o.id == r.id then r else o)
  else db ++ [r]

/-- The values the title-only upsert of GET /anime/search-api computes for
one upstream record (lines 132-137): romaji and native fall back to NULL,
english falls back to the literal string N/A. -/
structure TitleValues where
  id : Nat
  romaji : Option String
  english : String
  native : Option String
deriving DecidableEq

/-- Title values extracted from one upstream record. -/
def titleValuesOf (a : UpstreamAnime) : TitleValues :=
  ⟨a.id, jsToNull a.title.romaji, jsOr a.title.english "N/A", jsToNull a.title.native⟩

/-- Effect of the ON DUPLICATE KEY UPDATE branch of the title-only upsert
on an existing row: only the three title columns change. -/
def applyTitles (o : AnimeRow) (v : TitleValues) : AnimeRow :=
  { o with title_romaji := v.romaji, title_english := some v.english,
           title_native := v.native }

/-- Row created by the INSERT branch of the title-only upsert: every column
not listed in the INSERT stays at its NULL default. -/
def newTitleRow (v : TitleValues) : AnimeRow :=
  { id := v.id, title_romaji := v.romaji, title_english := some v.english,
    title_native := v.native, description := none, genres := none,
    cover_image := none, banner_image := none, episodes := none }

/-- Title-only upsert of GET /anime/search-api (lines 139-147) for a single
value row of the batch. -/
def upsertTitles1 (db : List AnimeRow) (v : TitleValues) : List AnimeRow :=
  if db.any (fun o => o.id == v.id)
  then db.map (fun o => if o.id == v.id then applyTitles o v else o)
  else db ++ [newTitleRow v]

/-- Batch title-only upsert: MySQL applies the batch rows in order. -/
def upsertTitles (db : List AnimeRow) (l : List UpstreamAnime) : List AnimeRow :=
  l.foldl (fun d a => upsertTitles1 d (titleValuesOf a)) db

/-- Episode upsert (lines 251-259) for a single value row: on a conflicting
(anime_id, episode_number) key every other column is updated, so the row
becomes the incoming row; otherwise it is appended. -/
def upsertEpisode1 (db : List EpisodeRow) (e : EpisodeRow) : List EpisodeRow :=
  if db.any (fun o => epKey o == epKey e)
  then db.map (fun o => if epKey o == epKey e then e else o)
  else db ++ [e]

/-- Batch episode upsert, applied in listing order. -/
def upsertEpisodes (db : List EpisodeRow) (rows : List EpisodeRow) : List EpisodeRow :=
  rows.foldl upsertEpisode1 db

/-- Episode rows built from the upstream streamingEpisodes listing starting
at zero-based index i (lines 221-239): the episode number is the ordinal
position plus one, the translated title is the sanitized translation with
the literal no-title fallback when it comes out empty. -/
def mkEpisodeRowsFrom (aid : Nat) (tr : Nat → TranslateResult) :
    Nat → List StreamingEpisode → List EpisodeRow
  | _, [] => []
  | i, ep :: rest =>
    { anime_id := aid, episode_number := i + 1,
      title_romaji := jsToNull ep.title,
      title_translated := some (jsOrStr (sanitizeText (translateText (tr i))) "Sem título"),
      thumbnail_image := jsToNull ep.thumbnail } :: mkEpisodeRowsFrom aid tr (i + 1) rest

/-- Episode rows the combined lookup prepares for the batch upsert. -/
def mkEpisodeRows (a : UpstreamAnime) (tr : Nat → TranslateResult) : List EpisodeRow :=
  mkEpisodeRowsFrom a.id tr 0 a.streamingEpisodes

/-- The full anime row persisted by the combined lookup (lines 263-286),
given the already sanitized translated description. -/
def fullRowOf (a : UpstreamAnime) (clean : String) : AnimeRow :=
  { id := a.id,
    title_romaji := jsToNull a.title.romaji,
    title_english := some (jsOr a.title.english "N/A"),
    title_native := jsToNull a.title.native,
    description := some (jsOrStr clean "Sem descrição"),
    genres := some (jsOrStr (String.intercalate ", " (a.genres.getD [])) "Gêneros desconhecidos"),
    cover_image := jsToNull (a.coverImage.bind CoverImage.extraLarge),
    banner_image := jsToNull a.bannerImage,
    episodes := some (a.episodes.getD 0) }

/-- Validation failure message shared by the three endpoints. -/
def badQueryMsg : String := "A consulta deve ser uma string não vazia."

/-- Generic 500 message. -/
def serverErrMsg : String := "Erro interno do servidor."

/-- Message returned by the title-only lookup when nothing matches. -/
def noTitlesMsg : String := "Nenhum título encontrado no banco. Tente buscar na API AniList."

/-- 404 message of the upstream paginated search. -/
def noApiAnimeMsg : String := "Nenhum anime encontrado na API."

/-- 404 message of the combined lookup. -/
def noNameAnimeMsg : String := "Anime não encontrado na AniList API."

/-- Title projection returned by the title-only lookup and by the upstream
search response. -/
structure TitleRow where
  id : Nat
  title_romaji : Option String
  title_english : Option String
  title_native : Option String
deriving DecidableEq

/-- Projection of a cached row onto the columns of the title SELECT. -/
def toTitleRow (r : AnimeRow) : TitleRow :=
  ⟨r.id, r.title_romaji, r.title_english, r.title_native⟩

/-- Raw titles of an upstream record as echoed by GET /anime/search-api
(lines 152-157): no N/A substitution happens in the response. -/
def rawTitleRow (a : UpstreamAnime) : TitleRow :=
  ⟨a.id, a.title.romaji, a.title.english, a.title.native⟩

/-- Response of GET /anime/search-titles. -/
structure TitlesResp where
  status : Nat
  source : Option String := none
  results : List TitleRow := []
  message : Option String := none
  error : Option String := none
deriving DecidableEq

/-- Result of one run of GET /anime/search-titles. -/
structure TitlesResult where
  resp : TitlesResp
  trace : List Effect
deriving DecidableEq

/-- Shaping of the title-only lookup result once the SELECT succeeded. -/
def titlesFound (sq : String) (rows : List TitleRow) : TitlesResult :=
  if rows = []
  then ⟨{ status := 200, source := some "database", message := some noTitlesMsg },
        [.dbSelectAnimes sq]⟩
  else ⟨{ status := 200, source := some "database", results := rows },
        [.dbSelectAnimes sq]⟩

/-- Handler of GET /anime/search-titles (lines 69-105). The readOk flag
injects a database failure: when false the SELECT throws and the handler
answers 500. A missing or non-string query parameter is modelled as none,
matching the typeof check of line 72. -/
def searchTitles (animes : List AnimeRow) (query : Option String) (readOk : Bool) :
    TitlesResult :=
  match query with
  | none => ⟨{ status := 400, error := some badQueryMsg }, []⟩
  | some q =>
    if jsTrim q = "" then ⟨{ status := 400, error := some badQueryMsg }, []⟩
    else if readOk then
      titlesFound (normalizeQuery q)
        ((animes.filter (matchesQuery (normalizeQuery q))).map toTitleRow)
    else ⟨{ status := 500, error := some serverErrMsg },
          [.dbSelectAnimes (normalizeQuery q)]⟩

/-- Response of GET /anime/search-api. -/
structure ApiResp where
  status : Nat
  source : Option String := none
  results : List TitleRow := []
  error : Option String := none
deriving DecidableEq

/-- Result of one run of GET /anime/search-api. -/
structure ApiResult where
  db : List AnimeRow
  resp : ApiResp
  trace : List Effect
deriving DecidableEq

/-- Handler of GET /anime/search-api (lines 107-163). upstream is the
outcome of the GraphQL page request: a thrown error, or Page.media which
may be null or empty; writeOk injects a failing title upsert. -/
def searchApi (db : List AnimeRow) (query : Option String) (page perPage : Int)
    (upstream : Except Unit (Option (List UpstreamAnime))) (writeOk : Bool) : ApiResult :=
  match query with
  | none => ⟨db, { status := 400, error := some badQueryMsg }, []⟩
  | some q =>
    if jsTrim q = "" then ⟨db, { status := 400, error := some badQueryMsg }, []⟩
    else
      match upstream with
      | .error _ =>
        ⟨db, { status := 500, error := some serverErrMsg },
         [.httpGraphql (normalizeQuery q)]⟩
      | .ok none =>
        ⟨db, { status := 404, error := some noApiAnimeMsg },
         [.httpGraphql (normalizeQuery q)]⟩
      | .ok (some l) =>
        if l = [] then
          ⟨db, { status := 404, error := some noApiAnimeMsg },
           [.httpGraphql (normalizeQuery q)]⟩
        else if writeOk then
          ⟨upsertTitles db l,
           { status := 200, source := some "api", results := l.map rawTitleRow },
           [.httpGraphql (normalizeQuery q), .dbUpsertAnimes]⟩
        else
          ⟨db, { status := 500, error := some serverErrMsg },
           [.httpGraphql (normalizeQuery q), .dbUpsertAnimes]⟩

/-- Anime payload of the cache-miss response of GET /anime/name. -/
structure ApiAnime where
  id : Nat
  title : UpstreamTitle
  description : String
  genres : Option (List String)
  episodes : Option Nat
  coverImage : Option String
  bannerImage : Option String
deriving DecidableEq

/-- Anime response payload built on the cache-miss path (lines 291-300). -/
def apiAnimeOf (a : UpstreamAnime) (clean : String) : ApiAnime :=
  ⟨a.id, a.title, clean, a.genres, a.episodes,
   a.coverImage.bind CoverImage.extraLarge, a.bannerImage⟩

/-- Episode payload of the cache-miss response of GET /anime/name. -/
structure ApiEpisode where
  number : Nat
  title_romaji : Option String
  title_translated : Option String
  thumbnail : Option String
deriving DecidableEq

/-- Episode response payload built on lines 301-306. -/
def apiEpisodeOf (e : EpisodeRow) : ApiEpisode :=
  ⟨e.episode_number, e.title_romaji, e.title_translated, e.thumbnail_image⟩

/-- Body of a GET /anime/name response: an error object, the cache-hit
shape, or the single assembled cache-miss result. -/
inductive NameBody where
  | err (msg : String)
  | hit (results : List (AnimeRow × List EpisodeRow))
  | miss (anime : ApiAnime) (episodes : List ApiEpisode)
deriving DecidableEq

/-- True on an error body. -/
def isErrBody : NameBody → Bool
  | .err _ => true
  | _ => false

/-- Response of GET /anime/name; page and limit are only present on the
success shapes. -/
structure NameResp where
  status : Nat
  page : Option Int := none
  limit : Option Int := none
  body : NameBody
deriving DecidableEq

/-- Result of one run of GET /anime/name. -/
structure NameResult where
  db : DB
  resp : NameResp
  trace : List Effect
deriving DecidableEq

/-- External world of one GET /anime/name request: the upstream single
Media response, the translation outcome for the description, the
translation outcome for each episode index, and failure injection for the
two write statements. -/
structure NameEnv where
  upstream : Except Unit (Option UpstreamAnime)
  descTr : TranslateResult
  epTr : Nat → TranslateResult
  epWriteOk : Bool
  animeWriteOk : Bool

/-- Trace prefix of the cache-miss pipeline: the cache SELECT followed by
the GraphQL fetch. -/
def baseTrace (sq : String) : List Effect :=
  [.dbSelectAnimes sq, .httpGraphql sq]

/-- Trace of the miss pipeline up to the end of the translation fan-out:
one description translation then one translation per episode. -/
def translateTrace (sq : String) (rows : List EpisodeRow) : List Effect :=
  baseTrace sq ++ .httpTranslate :: rows.map (fun _ => .httpTranslate)

/-- Final step of the miss pipeline (lines 263-310): the anime upsert runs
last; on success the response carries the constants page 1 and limit 1. -/
def persistAnime (db : DB) (tr : List Effect) (anime : UpstreamAnime) (clean : String)
    (rows : List EpisodeRow) (env : NameEnv) : NameResult :=
  if env.animeWriteOk then
    ⟨{ db with animes := upsertAnime1 db.animes (fullRowOf anime clean) },
     { status := 200, page := some 1, limit := some 1,
       body := .miss (apiAnimeOf anime clean) (rows.map apiEpisodeOf) },
     tr ++ [.dbUpsertAnimes]⟩
  else
    ⟨db, { status := 500, body := .err serverErrMsg }, tr ++ [.dbUpsertAnimes]⟩

/-- Persistence phase of the miss pipeline (lines 241-286): the episode
batch upsert runs first, and only when the episode list is non-empty; a
failing episode upsert aborts the request before the anime upsert. -/
def missPersist (db : DB) (sq : String) (anime : UpstreamAnime) (clean : String)
    (rows : List EpisodeRow) (env : NameEnv) : NameResult :=
  if rows = [] then persistAnime db (translateTrace sq rows) anime clean rows env
  else if env.epWriteOk then
    persistAnime { db with episodes := upsertEpisodes db.episodes rows }
      (translateTrace sq rows ++ [.dbUpsertEpisodes]) anime clean rows env
  else
    ⟨db, { status := 500, body := .err serverErrMsg },
     translateTrace sq rows ++ [.dbUpsertEpisodes]⟩

/-- Cache-miss pipeline of GET /anime/name (lines 207-310): fetch one Media
from upstream, 404 when null, otherwise translate and sanitize the
description, build the episode rows, then persist. -/
def namePipeline (db : DB) (sq : String) (env : NameEnv) : NameResult :=
  match env.upstream with
  | .error _ => ⟨db, { status := 500, body := .err serverErrMsg }, baseTrace sq⟩
  | .ok none => ⟨db, { status := 404, body := .err noNameAnimeMsg }, baseTrace sq⟩
  | .ok (some anime) =>
    missPersist db sq anime (sanitizeText (translateText env.descTr))
      (mkEpisodeRows anime env.epTr) env

/-- Cache-hit shape of GET /anime/name (lines 187-204): one episode SELECT
per matched anime, and the response echoes the requested page and limit. -/
def hitResult (db : DB) (rows : List AnimeRow) (page limit : Int) (sq : String) :
    NameResult :=
  ⟨db,
   { status := 200, page := some page, limit := some limit,
     body := .hit (rows.map (fun a => (a, db.episodes.filter (fun e => e.anime_id == a.id)))) },
   .dbSelectAnimes sq :: rows.map (fun a => .dbSelectEpisodes a.id)⟩

/-- Handler of GET /anime/name (lines 165-315). -/
def animeNameHandler (db : DB) (query : Option String) (page limit : Int)
    (env : NameEnv) : NameResult :=
  match query with
  | none => ⟨db, { status := 400, body := .err badQueryMsg }, []⟩
  | some q =>
    if jsTrim q = "" then ⟨db, { status := 400, body := .err badQueryMsg }, []⟩
    else if selectAnimes db.animes (normalizeQuery q) page limit = [] then
      namePipeline db (normalizeQuery q) env
    else
      hitResult db (selectAnimes db.animes (normalizeQuery q) page limit) page limit
        (normalizeQuery q)


/-! Concrete inputs used by the closed counterexample and witness theorems. -/

/-- Concrete upstream record with one streaming episode. -/
def oneEpAnime : UpstreamAnime :=
  { id := 1, title := ⟨some "Naruto", none, none⟩, description := some "d",
    genres := some ["Action"], episodes := some 220,
    coverImage := some ⟨some "c"⟩, bannerImage := some "b",
    streamingEpisodes := [⟨some "Ep1", some "t1"⟩] }

/-- Concrete upstream record with two streaming episodes. -/
def twoEpAnime : UpstreamAnime :=
  { id := 2, title := ⟨some "Bleach", some "Bleach", some "ブリーチ"⟩,
    description := some "<b>desc</b>", genres := some ["Action", "Drama"],
    episodes := some 366, coverImage := some ⟨some "c2"⟩, bannerImage := none,
    streamingEpisodes := [⟨some "Ep1", some "t1"⟩, ⟨some "Ep2", none⟩] }

/-- Environment whose episode batch upsert fails. -/
def epFailEnv : NameEnv :=
  { upstream := .ok (some oneEpAnime), descTr := .ok (some "desc"),
    epTr := fun _ => .ok (some "t"), epWriteOk := false, animeWriteOk := true }

/-- Environment whose anime upsert fails after a successful episode upsert. -/
def animeFailEnv : NameEnv :=
  { upstream := .ok (some oneEpAnime), descTr := .ok (some "desc"),
    epTr := fun _ => .ok (some "t"), epWriteOk := true, animeWriteOk := false }

/-- Environment whose description translation hits a non-success response. -/
def descFailEnv : NameEnv :=
  { upstream := .ok (some twoEpAnime), descTr := .badStatus,
    epTr := fun _ => .ok (some "t"), epWriteOk := true, animeWriteOk := true }

/-- Fully successful environment for the two-episode record. -/
def okEnv : NameEnv :=
  { upstream := .ok (some twoEpAnime), descTr := .ok (some "desc"),
    epTr := fun _ => .ok (some "t"), epWriteOk := true, animeWriteOk := true }

/-- Run of the combined lookup on an empty cache in which the episode batch
upsert fails. -/
def epFailRun : NameResult := animeNameHandler ⟨[], []⟩ (some "Naruto") 1 10 epFailEnv

/-- A concrete pre-existing cached row for the frame witnesses. -/
def seedRow : AnimeRow :=
  { id := 5, title_romaji := some "Old", title_english := some "OldEn",
    title_native := none, description := some "old desc", genres := some "Old, Genres",
    cover_image := some "oldc", banner_image := some "oldb", episodes := some 12 }

/-- Upstream record sharing the seed row identifier, with no english title. -/
def seedUpdate : UpstreamAnime :=
  { id := 5, title := ⟨some "NewRomaji", none, some "新"⟩, description := none,
    genres := none, episodes := none, coverImage := none, bannerImage := none,
    streamingEpisodes := [] }

/-- Upstream record with all three title scripts absent. -/
def noTitleAnime : UpstreamAnime :=
  { id := 9, title := ⟨none, none, none⟩, description := none, genres := none,
    episodes := none, coverImage := none, bannerImage := none,
    streamingEpisodes := [] }

/-! Helper lemmas about the store operations. -/

/-- No row of l carries id x, so the id filter is empty. -/
theorem filter_id_nil (l : List AnimeRow) (x : Nat) (h : ∀ o ∈ l, o.id ≠ x) :
    l.filter (fun o => o.id == x) = [] := by
  induction l with
  | nil => rfl
  | cons a tl ih =>
    rw [List.filter_cons, if_neg (by simpa using h a (List.mem_cons_self a tl))]
    exact ih fun o ho => h o (List.mem_cons_of_mem _ ho)

/-- No row of l carries id x, so the conditional update leaves l as is. -/
theorem map_update_id_nil (l : List AnimeRow) (x : Nat) (r : AnimeRow)
    (h : ∀ o ∈ l, o.id ≠ x) :
    l.map (fun o => if o.id == x then r else o) = l := by
  induction l with
  | nil => rfl
  | cons a tl ih =>
    rw [List.map_cons, if_neg (by simpa using h a (List.mem_cons_self a tl)),
        ih fun o ho => h o (List.mem_cons_of_mem _ ho)]

/-- Full anime upsert into a table with unique ids: afterwards exactly the
incoming row carries the incoming id. -/
theorem upsertAnime1_filter (db : List AnimeRow) (r : AnimeRow)
    (hu : (db.map AnimeRow.id).Nodup) :
    (upsertAnime1 db r).filter (fun o => o.id == r.id) = [r] := by
  induction db with
  | nil => simp [upsertAnime1]
  | cons a tl ih =>
    rw [List.map_cons, List.nodup_cons] at hu
    obtain ⟨ha, htl⟩ := hu
    by_cases h : a.id = r.id
    · have hne : ∀ o ∈ tl, o.id ≠ r.id := by
        intro o ho he
        exact ha (h ▸ he ▸ List.mem_map_of_mem AnimeRow.id ho)
      have hany : (a :: tl).any (fun o => o.id == r.id) = true := by
        simp [List.any_cons, h]
      unfold upsertAnime1
      rw [if_pos hany, List.map_cons, if_pos (by simpa using h),
          map_update_id_nil tl r.id r hne, List.filter_cons,
          if_pos (by simp), filter_id_nil tl r.id hne]
    · by_cases h2 : tl.any (fun o => o.id == r.id) = true
      · have hany : (a :: tl).any (fun o => o.id == r.id) = true := by
          simp [List.any_cons, h2]
        unfold upsertAnime1
        rw [if_pos hany, List.map_cons, if_neg (by simpa using h),
            List.filter_cons, if_neg (by simpa using h)]
        have htail := ih htl
        unfold upsertAnime1 at htail
        rw [if_pos h2] at htail
        exact htail
      · have hne : ∀ o ∈ tl, o.id ≠ r.id := by
          intro o ho he
          exact h2 (List.any_eq_true.mpr ⟨o, ho, by simpa using he⟩)
      -- the id is fresh for the whole list, so the row is appended
        have hany : ¬ ((a :: tl).any (fun o => o.id == r.id) = true) := by
          simp only [List.any_cons, Bool.or_eq_true]
          rintro (hh | hh)
          · exact h (by simpa using hh)
          · exact h2 hh
        unfold upsertAnime1
        rw [if_neg hany, List.filter_append,
            filter_id_nil (a :: tl) r.id (by
              intro o ho
              rcases List.mem_cons.mp ho with rfl | ho
              · exact h
              · exact hne o ho)]
        simp

/-- Full anime upsert preserves uniqueness of the id column. -/
theorem upsertAnime1_nodup (db : List AnimeRow) (r : AnimeRow)
    (hu : (db.map AnimeRow.id).Nodup) :
    ((upsertAnime1 db r).map AnimeRow.id).Nodup := by
  unfold upsertAnime1
  by_cases h : db.any (fun o => o.id == r.id) = true
  · rw [if_pos h, List.map_map]
    have hid : (AnimeRow.id ∘ fun o => if o.id == r.id then r else o) = AnimeRow.id := by
      funext o
      by_cases ho : o.id = r.id
      · simp [Function.comp, ho]
      · simp [Function.comp, ho]
    rw [hid]
    exact hu
  · rw [if_neg h, List.map_append, List.nodup_append]
    refine ⟨hu, List.nodup_singleton _, ?_⟩
    intro x hx hx2
    simp only [List.map_cons, List.map_nil, List.mem_singleton] at hx2
    subst hx2
    rcases List.mem_map.mp hx with ⟨o, ho, hoid⟩
    exact h (List.any_eq_true.mpr ⟨o, ho, by simp [hoid]⟩)

/-- The updated row keeps its identifier. -/
theorem applyTitles_id (o : AnimeRow) (v : TitleValues) : (applyTitles o v).id = o.id := rfl

/-- Title-only upsert hitting an existing row: the first row found under the
incoming id afterwards is the old row with only its title columns replaced. -/
theorem find_upsertTitles1 (db : List AnimeRow) (v : TitleValues) (r : AnimeRow)
    (hf : db.find? (fun o => o.id == v.id) = some r) :
    (upsertTitles1 db v).find? (fun o => o.id == v.id) = some (applyTitles r v) := by
  induction db with
  | nil => simp at hf
  | cons a tl ih =>
    by_cases pa : (a.id == v.id) = true
    · have hf2 : some a = some r := (List.find?_cons_of_pos tl pa).symm.trans hf
      injection hf2 with hf2
      subst hf2
      have hany : (a :: tl).any (fun o => o.id == v.id) = true := by
        simp [List.any_cons, pa]
      unfold upsertTitles1
      rw [if_pos hany, List.map_cons, if_pos pa]
      exact List.find?_cons_of_pos _ pa
    · have hf2 : List.find? (fun o => o.id == v.id) tl = some r :=
        (List.find?_cons_of_neg tl pa).symm.trans hf
      have hpr := List.find?_some hf2
      have hmem := List.mem_of_find?_eq_some hf2
      have hanytl : tl.any (fun o => o.id == v.id) = true :=
        List.any_eq_true.mpr ⟨r, hmem, hpr⟩
      have hany : (a :: tl).any (fun o => o.id == v.id) = true := by
        simp [List.any_cons, hanytl]
      have htail := ih hf2
      unfold upsertTitles1 at htail
      rw [if_pos hanytl] at htail
      unfold upsertTitles1
      rw [if_pos hany, List.map_cons, if_neg pa]
      rw [← htail]
      exact List.find?_cons_of_neg _ pa

/-- Episode numbers assigned from index i onwards are i+1, i+2, ... in
listing order. -/
theorem mkEpisodeRowsFrom_numbers (aid : Nat) (tr : Nat → TranslateResult) :
    ∀ (l : List StreamingEpisode) (i : Nat),
      (mkEpisodeRowsFrom aid tr i l).map EpisodeRow.episode_number
        = List.range' (i + 1) l.length := by
  intro l
  induction l with
  | nil => intro i; rfl
  | cons ep rest ih =>
    intro i
    show (i + 1) :: (mkEpisodeRowsFrom aid tr (i + 1) rest).map EpisodeRow.episode_number
        = (i + 1) :: List.range' (i + 2) rest.length
    rw [ih (i + 1)]

/-- Keys of the prepared episode rows: the constant anime id paired with the
assigned consecutive numbers. -/
theorem mkEpisodeRowsFrom_keys (aid : Nat) (tr : Nat → TranslateResult) :
    ∀ (l : List StreamingEpisode) (i : Nat),
      (mkEpisodeRowsFrom aid tr i l).map epKey
        = (List.range' (i + 1) l.length).map (fun n => (aid, n)) := by
  intro l
  induction l with
  | nil => intro i; rfl
  | cons ep rest ih =>
    intro i
    show (aid, i + 1) :: (mkEpisodeRowsFrom aid tr (i + 1) rest).map epKey
        = (aid, i + 1) :: (List.range' (i + 2) rest.length).map (fun n => (aid, n))
    rw [ih (i + 1)]

/-- The prepared episode rows are empty exactly when the upstream listing is. -/
theorem mkEpisodeRowsFrom_eq_nil (aid : Nat) (tr : Nat → TranslateResult)
    (i : Nat) (l : List StreamingEpisode) :
    mkEpisodeRowsFrom aid tr i l = [] ↔ l = [] := by
  cases l <;> simp [mkEpisodeRowsFrom]

/-- The keys of the prepared episode rows are pairwise distinct. -/
theorem mkEpisodeRows_keys_nodup (a : UpstreamAnime) (tr : Nat → TranslateResult) :
    ((mkEpisodeRows a tr).map epKey).Nodup := by
  unfold mkEpisodeRows
  rw [mkEpisodeRowsFrom_keys]
  exact (List.nodup_range' 1 a.streamingEpisodes.length).map
    (fun m n h => by simpa using congrArg Prod.snd h)

/-- Batch episode upsert whose keys are all fresh and pairwise distinct is a
plain append. -/
theorem upsertEpisodes_append (rows : List EpisodeRow) :
    ∀ db : List EpisodeRow, (db.map epKey ++ rows.map epKey).Nodup →
      upsertEpisodes db rows = db ++ rows := by
  induction rows with
  | nil => intro db _; simp [upsertEpisodes]
  | cons e rest ih =>
    intro db h
    have hke : epKey e ∉ db.map epKey := by
      rw [List.nodup_append] at h
      exact fun hmem => h.2.2 hmem (by simp)
    have hany : ¬ (db.any (fun o => epKey o == epKey e) = true) := by
      intro hx
      rcases List.any_eq_true.mp hx with ⟨o, ho, hpo⟩
      exact hke ((by simpa using hpo : epKey o = epKey e) ▸ List.mem_map_of_mem epKey ho)
    have hstep : upsertEpisode1 db e = db ++ [e] := by
      unfold upsertEpisode1
      rw [if_neg hany]
    have h' : ((db ++ [e]).map epKey ++ rest.map epKey).Nodup := by
      simpa [List.map_append, List.append_assoc] using h
    have htail := ih (db ++ [e]) h'
    show rest.foldl upsertEpisode1 (upsertEpisode1 db e) = db ++ e :: rest
    rw [hstep]
    unfold upsertEpisodes at htail
    rw [htail, List.append_assoc]
    rfl

/-! Reduction lemmas for the combined lookup handler. -/

/-- A valid query that misses the cache enters the upstream pipeline. -/
theorem animeNameHandler_miss (db : DB) (q : String) (page limit : Int) (env : NameEnv)
    (hq : ¬ jsTrim q = "")
    (hmiss : selectAnimes db.animes (normalizeQuery q) page limit = []) :
    animeNameHandler db (some q) page limit env
      = namePipeline db (normalizeQuery q) env := by
  simp only [animeNameHandler]
  rw [if_neg hq, if_pos hmiss]

/-- A valid query that hits the cache returns the stored rows. -/
theorem animeNameHandler_hit (db : DB) (q : String) (page limit : Int) (env : NameEnv)
    (hq : ¬ jsTrim q = "")
    (hhit : ¬ selectAnimes db.animes (normalizeQuery q) page limit = []) :
    animeNameHandler db (some q) page limit env
      = hitResult db (selectAnimes db.animes (normalizeQuery q) page limit) page limit
          (normalizeQuery q) := by
  simp only [animeNameHandler]
  rw [if_neg hq, if_neg hhit]

/-- When upstream yields a Media object the pipeline translates, builds the
episode rows and persists. -/
theorem namePipeline_found (db : DB) (sq : String) (env : NameEnv) (anime : UpstreamAnime)
    (hup : env.upstream = .ok (some anime)) :
    namePipeline db sq env
      = missPersist db sq anime (sanitizeText (translateText env.descTr))
          (mkEpisodeRows anime env.epTr) env := by
  unfold namePipeline
  rw [hup]

/-- Both outcomes of the final anime upsert append exactly one upsert
statement to the trace. -/
theorem persistAnime_trace (db : DB) (tr : List Effect) (anime : UpstreamAnime)
    (clean : String) (rows : List EpisodeRow) (env : NameEnv) :
    (persistAnime db tr anime clean rows env).trace = tr ++ [.dbUpsertAnimes] := by
  unfold persistAnime
  split <;> rfl

/-- The translation fan-out trace written out as successive conses. -/
theorem translateTrace_cons (sq : String) (rows : List EpisodeRow) :
    translateTrace sq rows
      = .dbSelectAnimes sq :: .httpGraphql sq :: .httpTranslate ::
          rows.map (fun _ => .httpTranslate) := rfl

/-- Successful persistence of the miss pipeline: episodes first (skipped on
an empty listing), then the anime row; the response carries the api tag
shape with constants page 1 and limit 1. -/
theorem missPersist_ok (db : DB) (sq : String) (anime : UpstreamAnime) (clean : String)
    (rows : List EpisodeRow) (env : NameEnv)
    (hep : env.epWriteOk = true) (han : env.animeWriteOk = true) :
    missPersist db sq anime clean rows env
      = ⟨{ animes := upsertAnime1 db.animes (fullRowOf anime clean),
           episodes := upsertEpisodes db.episodes rows },
         { status := 200, page := some 1, limit := some 1,
           body := .miss (apiAnimeOf anime clean) (rows.map apiEpisodeOf) },
         (if rows = [] then translateTrace sq rows
          else translateTrace sq rows ++ [.dbUpsertEpisodes]) ++ [.dbUpsertAnimes]⟩ := by
  unfold missPersist
  by_cases hrows : rows = []
  · rw [if_pos hrows, if_pos hrows]
    unfold persistAnime
    rw [if_pos han]
    subst hrows
    rfl
  · rw [if_neg hrows, if_neg hrows, hep, if_pos rfl]
    unfold persistAnime
    rw [if_pos han]

/-! Claim theorems. -/

/-- C1, counterexample: the claim states the anime row is upserted first and
the episode batch after it, so an episode-upsert failure would leave the
already-committed anime row in place. On a concrete fresh-cache run whose
episode batch upsert fails, the request aborts with 500 but NO anime row
has been committed, and no anime upsert statement was even attempted: the
code persists episodes before the anime. -/
theorem claim_C1_counterexample :
    epFailRun.resp.status = 500 ∧ epFailRun.db.animes = []
      ∧ Effect.dbUpsertAnimes ∉ epFailRun.trace := by
  decide

/-- C1 (amended): on the cache-miss path the episode records are persisted
by batch upsert first and the anime record by upsert after it, so that if
the anime upsert fails the request aborts with 500 while the already
committed episode rows remain in place and the animes table is unchanged
(anime absent or stale, episodes present). -/
theorem claim_C1 (db : DB) (q : String) (page limit : Int) (env : NameEnv)
    (anime : UpstreamAnime)
    (hq : ¬ jsTrim q = "")
    (hmiss : selectAnimes db.animes (normalizeQuery q) page limit = [])
    (hup : env.upstream = .ok (some anime))
    (heps : anime.streamingEpisodes ≠ [])
    (hep : env.epWriteOk = true) (han : env.animeWriteOk = false) :
    (animeNameHandler db (some q) page limit env).resp.status = 500
    ∧ (animeNameHandler db (some q) page limit env).db.episodes
        = upsertEpisodes db.episodes (mkEpisodeRows anime env.epTr)
    ∧ (animeNameHandler db (some q) page limit env).db.animes = db.animes := by
  rw [animeNameHandler_miss db q page limit env hq hmiss,
      namePipeline_found db (normalizeQuery q) env anime hup]
  have hrows : ¬ (mkEpisodeRows anime env.epTr = []) := by
    unfold mkEpisodeRows
    rw [mkEpisodeRowsFrom_eq_nil]
    exact heps
  unfold missPersist
  rw [if_neg hrows, hep, if_pos rfl]
  unfold persistAnime
  rw [han]
  simp

/-- C1, witness for the amended statement: fresh cache, one-episode record,
failing anime upsert. -/
theorem claim_C1_witness :
    (animeNameHandler ⟨[], []⟩ (some "Naruto") 1 10 animeFailEnv).resp.status = 500
    ∧ (animeNameHandler ⟨[], []⟩ (some "Naruto") 1 10 animeFailEnv).db.episodes
        = upsertEpisodes [] (mkEpisodeRows oneEpAnime animeFailEnv.epTr)
    ∧ (animeNameHandler ⟨[], []⟩ (some "Naruto") 1 10 animeFailEnv).db.animes = [] :=
  claim_C1 ⟨[], []⟩ "Naruto" 1 10 animeFailEnv oneEpAnime (by decide) (by decide) rfl
    (by decide) rfl rfl

/-- C4: the anime upsert is keyed on the external identifier: upserting two
full rows carrying the same identifier into a table with unique ids leaves
exactly one stored row under that identifier, equal to the second
submission, and identifiers stay unique (update-in-place, no duplicate). -/
theorem claim_C4 (db : List AnimeRow) (r1 r2 : AnimeRow)
    (hu : (db.map AnimeRow.id).Nodup) (hid : r1.id = r2.id) :
    (upsertAnime1 (upsertAnime1 db r1) r2).filter (fun o => o.id == r1.id) = [r2]
    ∧ ((upsertAnime1 (upsertAnime1 db r1) r2).map AnimeRow.id).Nodup := by
  constructor
  · rw [hid]
    exact upsertAnime1_filter _ r2 (upsertAnime1_nodup db r1 hu)
  · exact upsertAnime1_nodup _ r2 (upsertAnime1_nodup db r1 hu)

/-- C4, witness: two different full rows with identifier 5 on an empty
table. -/
theorem claim_C4_witness :
    (upsertAnime1 (upsertAnime1 [] seedRow) (fullRowOf seedUpdate "x")).filter
        (fun o => o.id == seedRow.id) = [fullRowOf seedUpdate "x"]
    ∧ ((upsertAnime1 (upsertAnime1 [] seedRow) (fullRowOf seedUpdate "x")).map
        AnimeRow.id).Nodup :=
  claim_C4 [] seedRow (fullRowOf seedUpdate "x") (by decide) (by decide)

/-- C5: the title-only upsert of GET /anime/search-api writes only the
identifier and the three title columns: on a pre-existing row with the
incoming identifier the description, genres, image and episode-count
columns keep their old values while the three title columns take the
incoming values; and on the success path the handler applies exactly this
batch upsert to the table. -/
theorem claim_C5 :
    (∀ (db : List AnimeRow) (a : UpstreamAnime) (r : AnimeRow),
      db.find? (fun o => o.id == a.id) = some r →
      (upsertTitles1 db (titleValuesOf a)).find? (fun o => o.id == a.id)
          = some (applyTitles r (titleValuesOf a))
      ∧ (applyTitles r (titleValuesOf a)).description = r.description
      ∧ (applyTitles r (titleValuesOf a)).genres = r.genres
      ∧ (applyTitles r (titleValuesOf a)).cover_image = r.cover_image
      ∧ (applyTitles r (titleValuesOf a)).banner_image = r.banner_image
      ∧ (applyTitles r (titleValuesOf a)).episodes = r.episodes
      ∧ (applyTitles r (titleValuesOf a)).title_romaji = jsToNull a.title.romaji
      ∧ (applyTitles r (titleValuesOf a)).title_english = some (jsOr a.title.english "N/A")
      ∧ (applyTitles r (titleValuesOf a)).title_native = jsToNull a.title.native)
    ∧ (∀ (db : List AnimeRow) (q : String) (page perPage : Int)
        (l : List UpstreamAnime),
        ¬ jsTrim q = "" → l ≠ [] →
        (searchApi db (some q) page perPage (.ok (some l)) true).db = upsertTitles db l) := by
  constructor
  · intro db a r hf
    exact ⟨find_upsertTitles1 db (titleValuesOf a) r hf, rfl, rfl, rfl, rfl, rfl, rfl, rfl, rfl⟩
  · intro db q page perPage l hq hl
    simp only [searchApi]
    rw [if_neg hq, if_neg hl]
    simp

/-- C5, witness: the seed row is updated in place by a title-only upsert
and only its title columns change; the handler run agrees. -/
theorem claim_C5_witness :
    ((upsertTitles1 [seedRow] (titleValuesOf seedUpdate)).find?
         (fun o => o.id == seedUpdate.id)
       = some (applyTitles seedRow (titleValuesOf seedUpdate))
     ∧ (applyTitles seedRow (titleValuesOf seedUpdate)).description = seedRow.description
     ∧ (applyTitles seedRow (titleValuesOf seedUpdate)).genres = seedRow.genres
     ∧ (applyTitles seedRow (titleValuesOf seedUpdate)).cover_image = seedRow.cover_image
     ∧ (applyTitles seedRow (titleValuesOf seedUpdate)).banner_image = seedRow.banner_image
     ∧ (applyTitles seedRow (titleValuesOf seedUpdate)).episodes = seedRow.episodes
     ∧ (applyTitles seedRow (titleValuesOf seedUpdate)).title_romaji
         = jsToNull seedUpdate.title.romaji
     ∧ (applyTitles seedRow (titleValuesOf seedUpdate)).title_english
         = some (jsOr seedUpdate.title.english "N/A")
     ∧ (applyTitles seedRow (titleValuesOf seedUpdate)).title_native
         = jsToNull seedUpdate.title.native)
    ∧ (searchApi [seedRow] (some "Bleach") 1 10 (.ok (some [seedUpdate])) true).db
        = upsertTitles [seedRow] [seedUpdate] :=
  ⟨claim_C5.1 [seedRow] seedUpdate seedRow (by decide),
   claim_C5.2 [seedRow] "Bleach" 1 10 [seedUpdate] (by decide) (by decide)⟩

/-- C2: translateText never propagates an error: on any transport failure
or non-success response it returns the fixed fallback string, and in that
case the combined lookup still completes with success status, the returned
description equals the fallback, and the stored anime row carries the
fallback as its description. -/
theorem claim_C2 :
    (∀ r : TranslateResult, failedTranslate r → translateText r = "Tradução indisponível")
    ∧ (∀ (db : DB) (q : String) (page limit : Int) (env : NameEnv)
        (anime : UpstreamAnime),
        ¬ jsTrim q = "" →
        selectAnimes db.animes (normalizeQuery q) page limit = [] →
        env.upstream = .ok (some anime) →
        failedTranslate env.descTr →
        env.epWriteOk = true → env.animeWriteOk = true →
        (animeNameHandler db (some q) page limit env).resp.status = 200
        ∧ (animeNameHandler db (some q) page limit env).resp.body
            = NameBody.miss (apiAnimeOf anime "Tradução indisponível")
                ((mkEpisodeRows anime env.epTr).map apiEpisodeOf)
        ∧ (apiAnimeOf anime "Tradução indisponível").description = "Tradução indisponível"
        ∧ (animeNameHandler db (some q) page limit env).db.animes
            = upsertAnime1 db.animes (fullRowOf anime "Tradução indisponível")
        ∧ (fullRowOf anime "Tradução indisponível").description
            = some "Tradução indisponível") := by
  constructor
  · intro r hr
    rcases hr with h | h <;> rw [h] <;> rfl
  · intro db q page limit env anime hq hmiss hup hfail hep han
    have htr : translateText env.descTr = "Tradução indisponível" := by
      rcases hfail with h | h <;> rw [h] <;> rfl
    have hclean : sanitizeText (translateText env.descTr) = "Tradução indisponível" := by
      rw [htr]
      decide
    rw [animeNameHandler_miss db q page limit env hq hmiss,
        namePipeline_found db (normalizeQuery q) env anime hup, hclean,
        missPersist_ok db (normalizeQuery q) anime "Tradução indisponível"
          (mkEpisodeRows anime env.epTr) env hep han]
    exact ⟨rfl, rfl, rfl, rfl, rfl⟩

/-- C2, witness: a non-success translation response on a fresh cache still
yields a 200 response whose description is the fallback string. -/
theorem claim_C2_witness :
    (animeNameHandler ⟨[], []⟩ (some "Bleach") 1 10 descFailEnv).resp.status = 200
    ∧ (animeNameHandler ⟨[], []⟩ (some "Bleach") 1 10 descFailEnv).resp.body
        = NameBody.miss (apiAnimeOf twoEpAnime "Tradução indisponível")
            ((mkEpisodeRows twoEpAnime descFailEnv.epTr).map apiEpisodeOf)
    ∧ (apiAnimeOf twoEpAnime "Tradução indisponível").description = "Tradução indisponível"
    ∧ (animeNameHandler ⟨[], []⟩ (some "Bleach") 1 10 descFailEnv).db.animes
        = upsertAnime1 [] (fullRowOf twoEpAnime "Tradução indisponível")
    ∧ (fullRowOf twoEpAnime "Tradução indisponível").description
        = some "Tradução indisponível" :=
  claim_C2.2 ⟨[], []⟩ "Bleach" 1 10 descFailEnv twoEpAnime (by decide) (by decide) rfl
    (Or.inr rfl) rfl rfl

/-- C3: the combined lookup numbers the episode rows it builds 1..N by
ordinal position in the upstream streaming-episode listing, and on a
successful cache-miss run over an empty episode table exactly those rows,
with exactly those numbers in listing order, are persisted. -/
theorem claim_C3 :
    (∀ (a : UpstreamAnime) (tr : Nat → TranslateResult),
      (mkEpisodeRows a tr).map EpisodeRow.episode_number
        = List.range' 1 a.streamingEpisodes.length)
    ∧ (∀ (db : DB) (q : String) (page limit : Int) (env : NameEnv)
        (anime : UpstreamAnime),
        ¬ jsTrim q = "" →
        selectAnimes db.animes (normalizeQuery q) page limit = [] →
        env.upstream = .ok (some anime) →
        env.epWriteOk = true → env.animeWriteOk = true →
        db.episodes = [] →
        (animeNameHandler db (some q) page limit env).db.episodes
            = mkEpisodeRows anime env.epTr
        ∧ (animeNameHandler db (some q) page limit env).db.episodes.map
            EpisodeRow.episode_number = List.range' 1 anime.streamingEpisodes.length) := by
  constructor
  · intro a tr
    exact mkEpisodeRowsFrom_numbers a.id tr a.streamingEpisodes 0
  · intro db q page limit env anime hq hmiss hup hep han hE
    have happ : upsertEpisodes [] (mkEpisodeRows anime env.epTr)
        = mkEpisodeRows anime env.epTr := by
      have h := upsertEpisodes_append (mkEpisodeRows anime env.epTr) []
        (by simpa using mkEpisodeRows_keys_nodup anime env.epTr)
      simpa using h
    rw [animeNameHandler_miss db q page limit env hq hmiss,
        namePipeline_found db (normalizeQuery q) env anime hup,
        missPersist_ok db (normalizeQuery q) anime
          (sanitizeText (translateText env.descTr)) (mkEpisodeRows anime env.epTr)
          env hep han]
    show upsertEpisodes db.episodes (mkEpisodeRows anime env.epTr) = _
      ∧ (upsertEpisodes db.episodes (mkEpisodeRows anime env.epTr)).map
          EpisodeRow.episode_number = _
    rw [hE, happ]
    exact ⟨rfl, mkEpisodeRowsFrom_numbers anime.id env.epTr anime.streamingEpisodes 0⟩

/-- C3, witness: a two-episode upstream record on an empty cache persists
episode numbers 1 and 2 in listing order. -/
theorem claim_C3_witness :
    (animeNameHandler ⟨[], []⟩ (some "Bleach") 1 10 okEnv).db.episodes
        = mkEpisodeRows twoEpAnime okEnv.epTr
    ∧ (animeNameHandler ⟨[], []⟩ (some "Bleach") 1 10 okEnv).db.episodes.map
        EpisodeRow.episode_number = List.range' 1 twoEpAnime.streamingEpisodes.length :=
  claim_C3.2 ⟨[], []⟩ "Bleach" 1 10 okEnv twoEpAnime (by decide) (by decide) rfl rfl rfl rfl

/-- C9: on the cache-miss path the response page and limit fields are the
constants 1 and 1, regardless of the requested page and limit; only the
cache-hit path echoes the requested page and limit. -/
theorem claim_C9 :
    (∀ (db : DB) (q : String) (page limit : Int) (env : NameEnv)
      (anime : UpstreamAnime),
      ¬ jsTrim q = "" →
      selectAnimes db.animes (normalizeQuery q) page limit = [] →
      env.upstream = .ok (some anime) →
      env.epWriteOk = true → env.animeWriteOk = true →
      (animeNameHandler db (some q) page limit env).resp.page = some 1
      ∧ (animeNameHandler db (some q) page limit env).resp.limit = some 1
      ∧ (animeNameHandler db (some q) page limit env).resp.status = 200)
    ∧ (∀ (db : DB) (q : String) (page limit : Int) (env : NameEnv),
      ¬ jsTrim q = "" →
      ¬ selectAnimes db.animes (normalizeQuery q) page limit = [] →
      (animeNameHandler db (some q) page limit env).resp.page = some page
      ∧ (animeNameHandler db (some q) page limit env).resp.limit = some limit
      ∧ (animeNameHandler db (some q) page limit env).resp.status = 200) := by
  constructor
  · intro db q page limit env anime hq hmiss hup hep han
    rw [animeNameHandler_miss db q page limit env hq hmiss,
        namePipeline_found db (normalizeQuery q) env anime hup,
        missPersist_ok db (normalizeQuery q) anime
          (sanitizeText (translateText env.descTr)) (mkEpisodeRows anime env.epTr)
          env hep han]
    exact ⟨rfl, rfl, rfl⟩
  · intro db q page limit env hq hhit
    rw [animeNameHandler_hit db q page limit env hq hhit]
    exact ⟨rfl, rfl, rfl⟩

/-- C9, witness: a miss with requested page 3 and limit 7 still answers
page 1 and limit 1, while a hit echoes page 3 and limit 7. -/
theorem claim_C9_witness :
    ((animeNameHandler ⟨[], []⟩ (some "Bleach") 3 7 okEnv).resp.page = some 1
     ∧ (animeNameHandler ⟨[], []⟩ (some "Bleach") 3 7 okEnv).resp.limit = some 1
     ∧ (animeNameHandler ⟨[], []⟩ (some "Bleach") 3 7 okEnv).resp.status = 200)
    ∧ ((animeNameHandler ⟨[seedRow], []⟩ (some "Old") 1 7 okEnv).resp.page = some 1
     ∧ (animeNameHandler ⟨[seedRow], []⟩ (some "Old") 1 7 okEnv).resp.limit = some 7
     ∧ (animeNameHandler ⟨[seedRow], []⟩ (some "Old") 1 7 okEnv).resp.status = 200) :=
  ⟨claim_C9.1 ⟨[], []⟩ "Bleach" 3 7 okEnv twoEpAnime (by decide) (by decide) rfl rfl rfl,
   claim_C9.2 ⟨[seedRow], []⟩ "Old" 1 7 okEnv (by decide) (by decide)⟩

/-- Membership survives dropWhile backwards. -/
theorem mem_of_dropWhile {α : Type} (p : α → Bool) (l : List α) (a : α)
    (h : a ∈ l.dropWhile p) : a ∈ l := by
  induction l with
  | nil => simp at h
  | cons b tl ih =>
    rw [List.dropWhile_cons] at h
    by_cases hb : p b = true
    · rw [if_pos hb] at h
      exact List.mem_cons_of_mem _ (ih h)
    · rw [if_neg hb] at h
      exact h

/-- Membership survives trimming backwards. -/
theorem mem_of_jsTrimList (l : List Char) (c : Char) (h : c ∈ jsTrimList l) : c ∈ l := by
  unfold jsTrimList at h
  rw [List.mem_reverse] at h
  have h2 := mem_of_dropWhile _ _ _ h
  rw [List.mem_reverse] at h2
  exact mem_of_dropWhile _ _ _ h2

/-- C6: the title-only lookup performs zero outbound HTTP calls on every
path, and when no cached row matches a valid query it answers 200 with an
empty result set and the informational message, with no fallback to the
upstream fetch. -/
theorem claim_C6 :
    (∀ (animes : List AnimeRow) (query : Option String) (readOk : Bool),
      ∀ e ∈ (searchTitles animes query readOk).trace, isHttpCall e = false)
    ∧ (∀ (animes : List AnimeRow) (q : String),
      ¬ jsTrim q = "" →
      animes.filter (matchesQuery (normalizeQuery q)) = [] →
      (searchTitles animes (some q) true).resp.status = 200
      ∧ (searchTitles animes (some q) true).resp.results = []
      ∧ (searchTitles animes (some q) true).resp.message = some noTitlesMsg) := by
  constructor
  · intro animes query readOk e he
    cases query with
    | none => simp [searchTitles] at he
    | some q =>
      simp only [searchTitles] at he
      split at he
      · simp at he
      · split at he
        · unfold titlesFound at he
          split at he <;> simp at he <;> subst he <;> rfl
        · simp at he
          subst he
          rfl
  · intro animes q hq hfilter
    simp only [searchTitles]
    rw [if_neg hq, hfilter]
    simp [titlesFound]

/-- C6, witness: a non-matching query on a non-empty cache returns the
empty set and the message, with a trace containing no HTTP call. -/
theorem claim_C6_witness :
    (∀ e ∈ (searchTitles [seedRow] (some "Bleach") true).trace, isHttpCall e = false)
    ∧ (searchTitles [seedRow] (some "Bleach") true).resp.status = 200
    ∧ (searchTitles [seedRow] (some "Bleach") true).resp.results = []
    ∧ (searchTitles [seedRow] (some "Bleach") true).resp.message = some noTitlesMsg :=
  ⟨claim_C6.1 [seedRow] (some "Bleach") true,
   (claim_C6.2 [seedRow] "Bleach" (by decide) (by decide)).1,
   (claim_C6.2 [seedRow] "Bleach" (by decide) (by decide)).2.1,
   (claim_C6.2 [seedRow] "Bleach" (by decide) (by decide)).2.2⟩

/-- C7: a missing query parameter, and a query that is empty after
trimming, are rejected by all three endpoints with status 400 and an error
body before any database or upstream call is made: the trace is empty and
the store is untouched. A non-string query parameter is identified with
the missing case by the shared typeof check. -/
theorem claim_C7 (q : Option String)
    (hq : q = none ∨ ∃ s, q = some s ∧ jsTrim s = "") :
    ∀ (animes db : List AnimeRow) (dbn : DB) (readOk : Bool)
      (page limit perPage : Int)
      (up : Except Unit (Option (List UpstreamAnime))) (wOk : Bool) (env : NameEnv),
      ((searchTitles animes q readOk).resp.status = 400
        ∧ (searchTitles animes q readOk).resp.error = some badQueryMsg
        ∧ (searchTitles animes q readOk).trace = [])
      ∧ ((searchApi db q page perPage up wOk).resp.status = 400
        ∧ (searchApi db q page perPage up wOk).resp.error = some badQueryMsg
        ∧ (searchApi db q page perPage up wOk).trace = []
        ∧ (searchApi db q page perPage up wOk).db = db)
      ∧ ((animeNameHandler dbn q page limit env).resp.status = 400
        ∧ (animeNameHandler dbn q page limit env).resp.body = .err badQueryMsg
        ∧ (animeNameHandler dbn q page limit env).trace = []
        ∧ (animeNameHandler dbn q page limit env).db = dbn) := by
  intro animes db dbn readOk page limit perPage up wOk env
  rcases hq with rfl | ⟨s, rfl, hs⟩
  · exact ⟨⟨rfl, rfl, rfl⟩, ⟨rfl, rfl, rfl, rfl⟩, ⟨rfl, rfl, rfl, rfl⟩⟩
  · simp only [searchTitles, searchApi, animeNameHandler]
    rw [if_pos hs, if_pos hs, if_pos hs]
    exact ⟨⟨rfl, rfl, rfl⟩, ⟨rfl, rfl, rfl, rfl⟩, ⟨rfl, rfl, rfl, rfl⟩⟩

/-- C7, witness: a whitespace-only query is rejected by all three
endpoints with an empty trace. -/
theorem claim_C7_witness :
    (searchTitles [] (some " ") true).resp.status = 400
    ∧ (searchApi [] (some " ") 1 10 (.ok none) true).resp.status = 400
    ∧ (animeNameHandler ⟨[], []⟩ (some " ") 1 10 okEnv).resp.status = 400
    ∧ (searchTitles [] (some " ") true).trace = []
    ∧ (searchApi [] (some " ") 1 10 (.ok none) true).trace = []
    ∧ (animeNameHandler ⟨[], []⟩ (some " ") 1 10 okEnv).trace = [] := by
  have h := claim_C7 (some " ") (Or.inr ⟨" ", rfl, by decide⟩) [] [] ⟨[], []⟩ true
    1 10 10 (.ok none) true okEnv
  exact ⟨h.1.1, h.2.1.1, h.2.2.1, h.1.2.2, h.2.1.2.2.1, h.2.2.2.2.1⟩

/-- C8: every endpoint normalizes the query before matching or searching:
normalization filters out exactly the characters outside the letter,
number and whitespace classes and trims the result, every character of the
normalized query is in those classes, and the first database or upstream
call of each handler carries the normalized query. -/
theorem claim_C8 :
    (∀ s : String, normalizeQuery s = jsTrim (String.mk (s.data.filter isQueryChar)))
    ∧ (∀ s : String, ∀ c ∈ (normalizeQuery s).data, isQueryChar c = true)
    ∧ (∀ (animes : List AnimeRow) (q : String) (readOk : Bool), ¬ jsTrim q = "" →
        (searchTitles animes (some q) readOk).trace.head?
          = some (Effect.dbSelectAnimes (normalizeQuery q)))
    ∧ (∀ (db : List AnimeRow) (q : String) (page perPage : Int)
        (up : Except Unit (Option (List UpstreamAnime))) (wOk : Bool), ¬ jsTrim q = "" →
        (searchApi db (some q) page perPage up wOk).trace.head?
          = some (Effect.httpGraphql (normalizeQuery q)))
    ∧ (∀ (db : DB) (q : String) (page limit : Int) (env : NameEnv), ¬ jsTrim q = "" →
        (animeNameHandler db (some q) page limit env).trace.head?
          = some (Effect.dbSelectAnimes (normalizeQuery q))) := by
  refine ⟨fun s => rfl, ?_, ?_, ?_, ?_⟩
  · intro s c hc
    have h1 : c ∈ jsTrimList (s.data.filter isQueryChar) := hc
    have h2 := mem_of_jsTrimList _ _ h1
    exact (List.mem_filter.mp h2).2
  · intro animes q readOk hq
    simp only [searchTitles]
    rw [if_neg hq]
    split
    · unfold titlesFound
      split <;> rfl
    · rfl
  · intro db q page perPage up wOk hq
    simp only [searchApi]
    rw [if_neg hq]
    split
    · rfl
    · rfl
    · split
      · rfl
      · split <;> rfl
  · intro db q page limit env hq
    by_cases hmiss : selectAnimes db.animes (normalizeQuery q) page limit = []
    · rw [animeNameHandler_miss db q page limit env hq hmiss]
      unfold namePipeline
      split
      · rfl
      · rfl
      · unfold missPersist
        split
        · rw [persistAnime_trace]
          rfl
        · split
          · rw [persistAnime_trace]
            rfl
          · rfl
    · rw [animeNameHandler_hit db q page limit env hq hmiss]
      rfl

/-- C8, witness: a query with punctuation is normalized before the first
call of each endpoint. -/
theorem claim_C8_witness :
    (searchTitles [] (some "Naruto!") true).trace.head?
        = some (Effect.dbSelectAnimes (normalizeQuery "Naruto!"))
    ∧ (searchApi [] (some "Naruto!") 1 10 (.ok none) true).trace.head?
        = some (Effect.httpGraphql (normalizeQuery "Naruto!"))
    ∧ (animeNameHandler ⟨[], []⟩ (some "Naruto!") 1 10 okEnv).trace.head?
        = some (Effect.dbSelectAnimes (normalizeQuery "Naruto!"))
    ∧ normalizeQuery "Naruto!" = "Naruto" :=
  ⟨claim_C8.2.2.1 [] "Naruto!" true (by decide),
   claim_C8.2.2.2.1 [] "Naruto!" 1 10 (.ok none) true (by decide),
   claim_C8.2.2.2.2 ⟨[], []⟩ "Naruto!" 1 10 okEnv (by decide),
   by decide⟩

/-- C10: on both upsert paths a missing english title is stored as the
literal string N/A while missing romanized and native titles are stored as
NULL: the three optional title columns are not treated uniformly. -/
theorem claim_C10 (a : UpstreamAnime) (clean : String) :
    (a.title.english = none →
      (titleValuesOf a).english = "N/A"
      ∧ (newTitleRow (titleValuesOf a)).title_english = some "N/A"
      ∧ (fullRowOf a clean).title_english = some "N/A")
    ∧ (a.title.romaji = none →
      (titleValuesOf a).romaji = none
      ∧ (newTitleRow (titleValuesOf a)).title_romaji = none
      ∧ (fullRowOf a clean).title_romaji = none)
    ∧ (a.title.native = none →
      (titleValuesOf a).native = none
      ∧ (newTitleRow (titleValuesOf a)).title_native = none
      ∧ (fullRowOf a clean).title_native = none) := by
  refine ⟨fun h => ?_, fun h => ?_, fun h => ?_⟩ <;>
    simp [titleValuesOf, newTitleRow, fullRowOf, jsOr, jsToNull, h]

/-- C10, witness: the record with all three titles absent. -/
theorem claim_C10_witness :
    (titleValuesOf noTitleAnime).english = "N/A"
    ∧ (newTitleRow (titleValuesOf noTitleAnime)).title_english = some "N/A"
    ∧ (fullRowOf noTitleAnime "c").title_english = some "N/A"
    ∧ (titleValuesOf noTitleAnime).romaji = none
    ∧ (fullRowOf noTitleAnime "c").title_romaji = none
    ∧ (titleValuesOf noTitleAnime).native = none
    ∧ (fullRowOf noTitleAnime "c").title_native = none := by
  have h := claim_C10 noTitleAnime "c"
  exact ⟨(h.1 rfl).1, (h.1 rfl).2.1, (h.1 rfl).2.2, (h.2.1 rfl).1, (h.2.1 rfl).2.2,
         (h.2.2 rfl).1, (h.2.2 rfl).2.2⟩
